import Mathlib

/-!
Verification development for the TediCross telegram→discord relay core
(`src/lib/telegram2discord/setup.js`, which bundles the setup module and two
revisions of the update getter).

The JavaScript is shallowly embedded: each handler becomes a pure Lean
function from its inputs and the responses of its collaborators (the Telegram
and Discord clients, modelled as explicit function arguments) to a trace of
the externally visible calls it makes.  Modules that the setup file requires
but that are not part of the source bundle (`MessageMap`, `handleUpdates`,
`messageConverter`, the bridge configuration) are modelled from the
specification and marked as such in their doc comments.
-/

namespace TediCross

/-! ## Telegram data model (fields inspected by the source) -/

/-- A Telegram document payload (`message.document`): the source reads
`file_id` and `file_name`. -/
structure TgDocument where
  file_id : String
  file_name : String
deriving DecidableEq, Repr

/-- A media payload carrying a mime type (`message.voice`, `message.video`):
the source reads `file_id` and `mime_type`. -/
structure TgMedia where
  file_id : String
  mime_type : String
deriving DecidableEq, Repr

/-- An audio payload (`message.audio`): the source reads `file_id` and
`title`. -/
structure TgAudio where
  file_id : String
  title : String
deriving DecidableEq, Repr

/-- A sticker payload (`message.sticker`): the source reads `thumb.file_id`
and `emoji` (the emoji may be absent on the wire). -/
structure TgSticker where
  thumb_file_id : String
  emoji : Option String
deriving DecidableEq, Repr

/-- The chat a message belongs to (`message.chat`): the source reads `id`. -/
structure TgChat where
  id : Int
deriving DecidableEq, Repr

/-- A Telegram message with the payload fields the source inspects; each is
optional, mirroring `!== undefined` checks in the JavaScript. -/
structure TgMessage where
  message_id : Nat
  chat : TgChat
  text : Option String := none
  photo : Option (List String) := none
  document : Option TgDocument := none
  voice : Option TgMedia := none
  audio : Option TgAudio := none
  video : Option TgMedia := none
  sticker : Option TgSticker := none
deriving DecidableEq, Repr

/-- One Telegram update envelope, as consumed by `fetchUpdates`: an id plus
the three envelope fields the source distinguishes. -/
structure TgUpdate where
  update_id : Nat
  message : Option TgMessage := none
  channel_post : Option TgMessage := none
  edited_message : Option TgMessage := none
deriving DecidableEq, Repr

/-! ## Event classification (updategetter, first revision, `fetchUpdates`) -/

/-- The events the update getter can emit, each carrying the message it was
classified from. -/
inductive TgEvent where
  | text (m : TgMessage)
  | photo (m : TgMessage)
  | document (m : TgMessage)
  | voice (m : TgMessage)
  | audio (m : TgMessage)
  | video (m : TgMessage)
  | sticker (m : TgMessage)
  | messageEdit (m : TgMessage)
deriving DecidableEq, Repr

/-- The kind of an event, without its payload. -/
inductive EventKind where
  | text
  | photo
  | document
  | voice
  | audio
  | video
  | sticker
  | messageEdit
deriving DecidableEq, Repr

/-- Forgetful projection from an emitted event to its kind. -/
def TgEvent.kind : TgEvent → EventKind
  | .text _ => .text
  | .photo _ => .photo
  | .document _ => .document
  | .voice _ => .voice
  | .audio _ => .audio
  | .video _ => .video
  | .sticker _ => .sticker
  | .messageEdit _ => .messageEdit

/-- `update.message || update.channel_post`: the message payload the
classifier works on, preferring `message`. -/
def carriedMessage (u : TgUpdate) : Option TgMessage :=
  u.message.orElse fun _ => u.channel_post

/-- The `if`/`else if` classification chain of `fetchUpdates` over a carried
message, including the source's duplicated (unreachable) second `voice`
branch; `none` means the message matches no branch and nothing is emitted. -/
def classifyMessage (m : TgMessage) : Option TgEvent :=
  if m.text.isSome then some (.text m)
  else if m.photo.isSome then some (.photo m)
  else if m.document.isSome then some (.document m)
  else if m.voice.isSome then some (.voice m)
  else if m.audio.isSome then some (.audio m)
  else if m.voice.isSome then some (.voice m)
  else if m.video.isSome then some (.video m)
  else if m.sticker.isSome then some (.sticker m)
  else none

/-- The events emitted for one update by the body of `updates.forEach` in
`fetchUpdates`: a message or channel post goes through `classifyMessage`;
otherwise a present `edited_message` yields a `messageEdit` event; otherwise
nothing. -/
def dispatchUpdate (u : TgUpdate) : List TgEvent :=
  if u.message.isSome || u.channel_post.isSome then
    match carriedMessage u with
    | some m => (classifyMessage m).toList
    | none => []
  else
    match u.edited_message with
    | some m => [TgEvent.messageEdit m]
    | none => []

/-! ### Specification-side view of classification (for the router claim) -/

/-- The recognized message-level payload fields of a message, listed in the
claimed priority order `text, photo, document, voice, audio, video,
sticker`. -/
def messageFieldKinds (m : TgMessage) : List EventKind :=
  (if m.text.isSome then [EventKind.text] else []) ++
  (if m.photo.isSome then [EventKind.photo] else []) ++
  (if m.document.isSome then [EventKind.document] else []) ++
  (if m.voice.isSome then [EventKind.voice] else []) ++
  (if m.audio.isSome then [EventKind.audio] else []) ++
  (if m.video.isSome then [EventKind.video] else []) ++
  (if m.sticker.isSome then [EventKind.sticker] else [])

/-- All recognized payload fields an update carries, in the claimed priority
order: the carried message's fields first, then `edited-message`. -/
def recognizedFieldKinds (u : TgUpdate) : List EventKind :=
  (match carriedMessage u with
   | some m => messageFieldKinds m
   | none => []) ++
  (if u.edited_message.isSome then [EventKind.messageEdit] else [])

/-- The first recognized payload field in the claimed priority order, if
any: the kind the specification says the router must dispatch to. -/
def priorityKind (u : TgUpdate) : Option EventKind :=
  (recognizedFieldKinds u).head?

/-- An update whose envelope is exclusive carries at most one of `message`,
`channel_post`, `edited_message` — the shape the Telegram API actually
produces and the specification's "mutually exclusive payload fields"
assumption. -/
def envelopeExclusive (u : TgUpdate) : Bool :=
  decide ((if u.message.isSome then 1 else 0) +
    (if u.channel_post.isSome then 1 else 0) +
    (if u.edited_message.isSome then (1 : Nat) else 0) ≤ 1)

/-- The classifier chain agrees with the head of the priority-ordered field
list of a message. -/
theorem classifyMessage_kind (m : TgMessage) :
    (classifyMessage m).map TgEvent.kind = (messageFieldKinds m).head? := by
  unfold classifyMessage messageFieldKinds
  by_cases h1 : m.text.isSome <;> by_cases h2 : m.photo.isSome <;>
    by_cases h3 : m.document.isSome <;> by_cases h4 : m.voice.isSome <;>
    by_cases h5 : m.audio.isSome <;> by_cases h6 : m.video.isSome <;>
    by_cases h7 : m.sticker.isSome <;>
    simp [h1, h2, h3, h4, h5, h6, h7, TgEvent.kind]

/-! ## The update poller (both updategetter revisions) -/

/-- The largest update id in a batch (`0` for an empty batch). -/
def batchMax (us : List TgUpdate) : Nat :=
  (us.map TgUpdate.update_id).foldl Nat.max 0

/-- One iteration of the first revision's `fetchUpdates` loop body, given the
current offset and the outcome of `bot.getUpdates`: on failure the `catch`
logs and leaves the offset alone; on success `updates.forEach` sets
`offset = update.update_id + 1` for each update in order and emits its
events. Returns the new offset and the emitted events, in order. -/
def fetchUpdatesStep (offset : Nat) (result : Except Unit (List TgUpdate)) :
    Nat × List TgEvent :=
  match result with
  | .error _ => (offset, [])
  | .ok updates =>
      updates.foldl
        (fun acc u => (u.update_id + 1, acc.2 ++ dispatchUpdate u))
        (offset, [])

/-- One iteration of the second revision's `fetchUpdates` loop body.  The
source sets `offset = handleUpdates(updates, emitter) + 1` on success and
leaves the offset alone in the `catch`.  Modelled from the spec:
`handleUpdates` (its file is not in the source bundle; only this caller is)
dispatches the batch in arrival order and hands back the final update's id,
the cursor becoming that plus one; on an empty successful batch the spec
fixes the cursor as unchanged (the watermark "id of the last consumed
update + 1" with nothing consumed). -/
def fetchUpdatesStepV2 (offset : Nat) (result : Except Unit (List TgUpdate)) :
    Nat :=
  match result with
  | .error _ => offset
  | .ok updates =>
      match updates.getLast? with
      | none => offset
      | some u => u.update_id + 1

/-- A strictly increasing list of naturals, decided by computation. -/
def strictlyIncreasing : List Nat → Bool
  | [] => true
  | [_] => true
  | a :: b :: t => decide (a < b) && strictlyIncreasing (b :: t)

/-! ## Backlog clearing (`clearInitialUpdates`, identical in both revisions) -/

/-- `clearInitialUpdates` run against a scripted source: the `n`-th
recursive call receives the `n`-th batch of the script.  An empty batch
returns the current offset; a non-empty batch advances the offset to the
batch's final update id plus one and recurses.  (The script-exhausted case
returns the current offset; the claims only concern scripts that do contain
an empty batch, where it is never reached.) -/
def clearInitialUpdates : List (List TgUpdate) → Nat → Nat
  | [], offset => offset
  | batch :: rest, offset =>
      match batch.getLast? with
      | none => offset
      | some u => clearInitialUpdates rest (u.update_id + 1)

/-- The batches backlog clearing actually consumes: the longest prefix of
the script with no empty batch. -/
def seenBatches (script : List (List TgUpdate)) : List (List TgUpdate) :=
  script.takeWhile fun b => !b.isEmpty

/-- Every update backlog clearing sees, in order. -/
def seenUpdates (script : List (List TgUpdate)) : List TgUpdate :=
  (seenBatches script).flatten

/-- The cursor the spec says clearing must end on: the initial offset,
stepped to `id + 1` for each seen update in order — i.e. the final seen
update's id plus one, or the initial offset when the first batch is empty. -/
def lastSeenOffset (offset : Nat) (script : List (List TgUpdate)) : Nat :=
  (seenUpdates script).foldl (fun _ u => u.update_id + 1) offset

/-! ## Helper lemmas on lists -/

/-- A left fold of `Nat.max` dominates its seed. -/
theorem le_foldl_max (l : List Nat) (a : Nat) : a ≤ l.foldl Nat.max a := by
  induction l generalizing a with
  | nil => exact le_refl a
  | cons x t ih => exact le_trans (Nat.le_max_left a x) (ih (Nat.max a x))

/-- A left fold of `Nat.max` dominates every list element. -/
theorem mem_le_foldl_max (l : List Nat) (a x : Nat) (hx : x ∈ l) :
    x ≤ l.foldl Nat.max a := by
  induction l generalizing a with
  | nil => cases hx
  | cons y t ih =>
    rcases List.mem_cons.mp hx with rfl | hx'
    · exact le_trans (Nat.le_max_right a x) (le_foldl_max t (Nat.max a x))
    · exact ih (Nat.max a y) hx'

/-- A left fold of `Nat.max` is bounded by any bound of the seed and the
elements. -/
theorem foldl_max_le (l : List Nat) (a m : Nat) (ha : a ≤ m)
    (h : ∀ x ∈ l, x ≤ m) : l.foldl Nat.max a ≤ m := by
  induction l generalizing a with
  | nil => exact ha
  | cons y t ih =>
    exact ih (Nat.max a y)
      (Nat.max_le.mpr ⟨ha, h y (List.mem_cons_self y t)⟩)
      fun x hx => h x (List.mem_cons_of_mem y hx)

/-- In a strictly increasing list every element is bounded by the last one
(for any default). -/
theorem strictlyIncreasing_le_getLastD (l : List Nat)
    (h : strictlyIncreasing l = true) :
    ∀ x ∈ l, ∀ d, x ≤ l.getLastD d := by
  induction l with
  | nil => intro x hx; cases hx
  | cons a t ih =>
    cases t with
    | nil =>
      intro x hx d
      rcases List.mem_cons.mp hx with rfl | h'
      · simp
      · cases h'
    | cons b t' =>
      simp only [strictlyIncreasing, Bool.and_eq_true, decide_eq_true_eq] at h
      intro x hx d
      rw [List.getLastD_cons _ _ _]
      rcases List.mem_cons.mp hx with heq | hx'
      · rw [heq]
        exact le_trans (le_of_lt h.1)
          (ih h.2 b (List.mem_cons_self b t') a)
      · exact ih h.2 x hx' a

/-- A fold that ignores its accumulator lands on the image of the last
element (or the seed if there is none). -/
theorem foldl_const_last {α β : Type} (l : List α) (g : α → β) (init : β) :
    l.foldl (fun _ v => g v) init = (l.map g).getLastD init := by
  induction l generalizing init with
  | nil => rfl
  | cons a t ih =>
    simp only [List.foldl_cons, List.map_cons]
    rw [ih (g a)]
    exact (List.getLastD_cons _ _ _).symm

/-! ## Claim C2 — cursor behaviour of one poll iteration -/

/-- The offset component of the first revision's `forEach` fold, from any
accumulator. -/
theorem fetch_foldl_fst (us : List TgUpdate) (acc : Nat × List TgEvent) :
    (us.foldl (fun acc u => (u.update_id + 1, acc.2 ++ dispatchUpdate u))
      acc).1 = (us.map fun u => u.update_id + 1).getLastD acc.1 := by
  induction us generalizing acc with
  | nil => rfl
  | cons u t ih =>
    simp only [List.foldl_cons, List.map_cons]
    rw [ih]
    exact (List.getLastD_cons _ _ _).symm

/-- The offset after the first revision's `forEach` equals the successor of
the final update id (or the seed offset for an empty batch). -/
theorem fetchUpdatesStep_fst (offset : Nat) (us : List TgUpdate) :
    (fetchUpdatesStep offset (.ok us)).1 =
      (us.map fun u => u.update_id + 1).getLastD offset :=
  fetch_foldl_fst us (offset, [])

/-- The second revision's step lands on the same offset as the first. -/
theorem fetchUpdatesStepV2_eq (offset : Nat) (us : List TgUpdate) :
    fetchUpdatesStepV2 offset (.ok us) =
      (us.map fun u => u.update_id + 1).getLastD offset := by
  rw [List.getLastD_eq_getLast?, List.getLast?_map]
  cases h : us.getLast? with
  | none => simp [fetchUpdatesStepV2, h]
  | some u => simp [fetchUpdatesStepV2, h]

/-- For a non-empty batch with strictly increasing ids, the stepped offset is
the batch maximum plus one. -/
theorem getLastD_map_succ_of_strictlyIncreasing (offset : Nat)
    (us : List TgUpdate) (hne : us ≠ [])
    (hinc : strictlyIncreasing (us.map TgUpdate.update_id) = true) :
    (us.map fun u => u.update_id + 1).getLastD offset = batchMax us + 1 := by
  obtain ⟨u, hu⟩ : ∃ u, us.getLast? = some u := by
    cases h : us.getLast? with
    | none => exact absurd (List.getLast?_eq_none_iff.mp h) hne
    | some u => exact ⟨u, rfl⟩
  have hlastD : (us.map TgUpdate.update_id).getLastD 0 = u.update_id := by
    rw [List.getLastD_eq_getLast?, List.getLast?_map, hu]
    rfl
  have hmax : batchMax us = u.update_id := by
    refine le_antisymm ?_ ?_
    · exact foldl_max_le _ 0 _ (Nat.zero_le _)
        fun x hx => hlastD ▸ strictlyIncreasing_le_getLastD _ hinc x hx 0
    · exact mem_le_foldl_max _ 0 _
        (List.mem_map.mpr ⟨u, List.mem_of_mem_getLast? hu, rfl⟩)
  rw [List.getLastD_eq_getLast?, List.getLast?_map, hu, hmax]
  rfl

/-- C2: across fetch iterations of the poller (either revision of
`fetchUpdates`), the cursor never decreases, provided the fetched batch
respects the cursor contract (every id at least the cursor, as the source
platform guarantees for `getUpdates(offset)`); after a successful non-empty
batch with strictly increasing ids it equals the batch's maximum update id
plus one; after a failed fetch it is unchanged. -/
theorem fetchUpdates_cursor (offset : Nat) (us : List TgUpdate) :
    ((∀ u ∈ us, offset ≤ u.update_id) →
      offset ≤ (fetchUpdatesStep offset (.ok us)).1 ∧
      offset ≤ fetchUpdatesStepV2 offset (.ok us)) ∧
    (us ≠ [] → strictlyIncreasing (us.map TgUpdate.update_id) = true →
      (fetchUpdatesStep offset (.ok us)).1 = batchMax us + 1 ∧
      fetchUpdatesStepV2 offset (.ok us) = batchMax us + 1) ∧
    (fetchUpdatesStep offset (.error ())).1 = offset ∧
    fetchUpdatesStepV2 offset (.error ()) = offset := by
  refine ⟨fun hall => ?_, fun hne hinc => ?_, rfl, rfl⟩
  · have h : offset ≤ (us.map fun u => u.update_id + 1).getLastD offset := by
      rw [List.getLastD_eq_getLast?, List.getLast?_map]
      cases h' : us.getLast? with
      | none => simp
      | some u =>
        simp only [Option.map_some', Option.getD_some]
        exact le_trans (hall u (List.mem_of_mem_getLast? h')) (Nat.le_succ _)
    exact ⟨fetchUpdatesStep_fst offset us ▸ h, fetchUpdatesStepV2_eq offset us ▸ h⟩
  · have h := getLastD_map_succ_of_strictlyIncreasing offset us hne hinc
    exact ⟨(fetchUpdatesStep_fst offset us).trans h,
      (fetchUpdatesStepV2_eq offset us).trans h⟩

/-- C2 witness: a concrete iteration at cursor 2 with batch ids 3, 5 keeps
the cursor monotone and lands on 6; a failed fetch leaves cursor 2. -/
theorem fetchUpdates_cursor_witness :
    2 ≤ (fetchUpdatesStep 2 (.ok [{ update_id := 3 }, { update_id := 5 }])).1 ∧
    (fetchUpdatesStep 2 (.ok [{ update_id := 3 }, { update_id := 5 }])).1 =
      batchMax [{ update_id := 3 }, { update_id := 5 }] + 1 ∧
    (fetchUpdatesStep 2 (.error ())).1 = 2 ∧
    fetchUpdatesStepV2 2 (.error ()) = 2 := by
  obtain ⟨h1, h2, h3, h4⟩ :=
    fetchUpdates_cursor 2 [{ update_id := 3 }, { update_id := 5 }]
  exact ⟨(h1 (by decide)).1, (h2 (by decide) (by decide)).1, h3, h4⟩

/-! ## Claim C3 — classification priority -/

/-- C3 (amended): for every update whose envelope carries at most one of
`message`, `channel_post`, `edited_message` (the source platform's
mutually-exclusive envelope), the router dispatches exactly the handler of
the first recognized payload field in the priority order text, photo,
document, voice, audio, video, sticker, edited-message, and dispatches
nothing when no field is recognized. -/
theorem classifyMessage_toList (m : TgMessage) :
    ((classifyMessage m).toList).map TgEvent.kind =
      ((messageFieldKinds m).head?).toList := by
  rw [← classifyMessage_kind]
  cases classifyMessage m <;> simp

theorem dispatchUpdate_priority (u : TgUpdate)
    (h : envelopeExclusive u = true) :
    (dispatchUpdate u).map TgEvent.kind = (priorityKind u).toList := by
  obtain ⟨id, msg, post, edited⟩ := u
  cases msg with
  | some m =>
    cases post with
    | some p => cases edited <;> simp [envelopeExclusive] at h
    | none =>
      cases edited with
      | some e => simp [envelopeExclusive] at h
      | none =>
        have hm := classifyMessage_toList m
        simp [dispatchUpdate, carriedMessage, priorityKind,
          recognizedFieldKinds, hm]
  | none =>
    cases post with
    | some p =>
      cases edited with
      | some e => simp [envelopeExclusive] at h
      | none =>
        have hp := classifyMessage_toList p
        simp [dispatchUpdate, carriedMessage, priorityKind,
          recognizedFieldKinds, hp]
    | none =>
      cases edited with
      | some e =>
        simp [dispatchUpdate, carriedMessage, priorityKind,
          recognizedFieldKinds, TgEvent.kind]
      | none =>
        simp [dispatchUpdate, carriedMessage, priorityKind,
          recognizedFieldKinds]

/-- An update mixing an unrecognized `message` payload with a present
`edited_message`, refuting claim C3 as stated. -/
def c3MixedUpdate : TgUpdate :=
  { update_id := 7
    message := some { message_id := 1, chat := { id := 1 } }
    edited_message := some { message_id := 1, chat := { id := 1 } } }

/-- C3 counterexample: this update carries a recognized payload field
(edited-message), yet the router dispatches nothing, because the presence of
the (unrecognized) `message` payload preempts the edited-message branch. -/
theorem dispatchUpdate_mixed_counterexample :
    recognizedFieldKinds c3MixedUpdate = [EventKind.messageEdit] ∧
    dispatchUpdate c3MixedUpdate = [] := by
  exact ⟨rfl, rfl⟩

/-- A text-plus-photo message update, exercising the priority order. -/
def c3DemoUpdate : TgUpdate :=
  { update_id := 3
    message := some
      { message_id := 2, chat := { id := 9 }, text := some "hi"
        photo := some ["p1"] } }

/-- C3 witness: a message carrying both text and photo is dispatched once,
to the text handler, matching the priority-ordered first field. -/
theorem dispatchUpdate_priority_witness :
    envelopeExclusive c3DemoUpdate = true ∧
    (dispatchUpdate c3DemoUpdate).map TgEvent.kind =
      (priorityKind c3DemoUpdate).toList :=
  ⟨by decide, dispatchUpdate_priority c3DemoUpdate (by decide)⟩

/-! ## Claim C7 — backlog clearing -/

/-- A fold stepping to `id + 1` over a non-empty list lands on the last
update's id plus one. -/
theorem foldl_succ_last (l : List TgUpdate) (u : TgUpdate)
    (hu : l.getLast? = some u) (init : Nat) :
    l.foldl (fun _ v => v.update_id + 1) init = u.update_id + 1 := by
  rw [foldl_const_last, List.getLastD_eq_getLast?, List.getLast?_map, hu]
  rfl

/-- Backlog clearing computes exactly the spec's cursor: the initial offset
stepped through every update it sees. -/
theorem clearInitialUpdates_eq_lastSeen (script : List (List TgUpdate))
    (hmem : [] ∈ script) (offset : Nat) :
    clearInitialUpdates script offset = lastSeenOffset offset script := by
  induction script generalizing offset with
  | nil => exact absurd hmem (List.not_mem_nil _)
  | cons batch rest ih =>
    cases batch with
    | nil =>
      simp [clearInitialUpdates, lastSeenOffset, seenUpdates, seenBatches]
    | cons b bs =>
      obtain ⟨u, hu⟩ : ∃ u, (b :: bs).getLast? = some u := by
        cases h : (b :: bs).getLast? with
        | none => exact absurd (List.getLast?_eq_none_iff.mp h) (by simp)
        | some u => exact ⟨u, rfl⟩
      have hmem' : [] ∈ rest := by
        rcases List.mem_cons.mp hmem with h | h
        · cases h
        · exact h
      have h1 : clearInitialUpdates ((b :: bs) :: rest) offset
          = clearInitialUpdates rest (u.update_id + 1) := by
        simp [clearInitialUpdates, hu]
      have h2 : lastSeenOffset offset ((b :: bs) :: rest)
          = lastSeenOffset (u.update_id + 1) rest := by
        simp only [lastSeenOffset, seenUpdates, seenBatches,
          List.takeWhile_cons, List.isEmpty_cons, Bool.not_false, if_true,
          List.flatten_cons, List.foldl_append]
        rw [foldl_succ_last _ u hu]
      rw [h1, h2, ih hmem']

/-- C7: for every scripted source whose batch sequence contains an empty
batch and whose update ids increase strictly across the stream (the data
model's id discipline), backlog clearing returns the initial offset stepped
past every update it saw — i.e. the last non-empty batch's final update id
plus one, or the initial offset when the very first batch is empty — and
that cursor is strictly greater than every seen update id. -/
theorem clearInitialUpdates_clears (script : List (List TgUpdate))
    (offset : Nat) (hempty : [] ∈ script)
    (hinc : strictlyIncreasing
      ((seenUpdates script).map TgUpdate.update_id) = true) :
    clearInitialUpdates script offset = lastSeenOffset offset script ∧
    ∀ u ∈ seenUpdates script,
      u.update_id < clearInitialUpdates script offset := by
  refine ⟨clearInitialUpdates_eq_lastSeen script hempty offset, ?_⟩
  intro u hu
  obtain ⟨w, hw⟩ : ∃ w, (seenUpdates script).getLast? = some w := by
    cases h : (seenUpdates script).getLast? with
    | none =>
      exact absurd (List.getLast?_eq_none_iff.mp h) (List.ne_nil_of_mem hu)
    | some w => exact ⟨w, rfl⟩
  have hres : clearInitialUpdates script offset = w.update_id + 1 := by
    rw [clearInitialUpdates_eq_lastSeen script hempty offset, lastSeenOffset,
      foldl_succ_last _ w hw]
  have hle : u.update_id ≤ w.update_id := by
    have h1 := strictlyIncreasing_le_getLastD _ hinc u.update_id
      (List.mem_map.mpr ⟨u, hu, rfl⟩) 0
    rwa [List.getLastD_eq_getLast?, List.getLast?_map, hw] at h1
  rw [hres]
  exact Nat.lt_succ_of_le hle

/-- C7 witness: the script `[[1,2],[4],[]]` from offset 0 clears to cursor
5, past every seen id. -/
theorem clearInitialUpdates_clears_witness :
    clearInitialUpdates
        [[{ update_id := 1 }, { update_id := 2 }], [{ update_id := 4 }], []] 0 =
      lastSeenOffset 0
        [[{ update_id := 1 }, { update_id := 2 }], [{ update_id := 4 }], []] ∧
    ∀ u ∈ seenUpdates
        [[{ update_id := 1 }, { update_id := 2 }], [{ update_id := 4 }], []],
      u.update_id < clearInitialUpdates
        [[{ update_id := 1 }, { update_id := 2 }], [{ update_id := 4 }], []] 0 :=
  clearInitialUpdates_clears _ 0 (by decide) (by decide)

/-! ## Authorization gate (`createMessageHandler` in setup.js) -/

/-- The bot's own identity (`tgBot.me`), set once `getMe` resolves; the
gate reads `username`. -/
structure BotInfo where
  username : String
deriving DecidableEq, Repr

/-- One bridge between a Telegram chat and a Discord channel.  The bundled
source reads `name` and `discord.channel` (here `discordChannel`);
`forwardStickerEmoji` is modelled from the spec's configuration surface
(the per-bridge flags, including "forward sticker emoji"), which the
bundled source never reads. -/
structure Bridge where
  name : String
  discordChannel : String
  forwardStickerEmoji : Bool
deriving DecidableEq, Repr

/-- Modelled from the spec: the bridge-configuration collaborator
(`Application.bridgeMap`, not part of the bundle), a lookup table from
Telegram chat id to bridge; `has` in the source is exactly "the lookup
succeeds". -/
abbrev BridgeMap := List (Int × Bridge)

/-- `Application.bridgeMap.getBridge("telegram", chatId)`. -/
def BridgeMap.getBridge (bm : BridgeMap) (chatId : Int) : Option Bridge :=
  (bm.find? fun e => e.1 == chatId).map fun e => e.2

/-- The externally visible actions of the handler wrapper: the in-place
chat-id reply, the "private bot" informational reply (both Telegram
`sendMessage` calls to the source chat), or handing the message to the
per-kind relay handler. -/
inductive WrapAction where
  | chatInfoReply (chatId : Int)
  | privateBotReply (chatId : Int)
  | invokeHandler (bridge : Bridge)
deriving DecidableEq, Repr

/-- Whether a wrapper action is the in-place chat-info reply. -/
def WrapAction.isChatInfo : WrapAction → Bool
  | .chatInfoReply _ => true
  | _ => false

/-- The chat-info guard: the message has text, `tgBot.me` is defined, and
the lowercased text equals the lowercased `@<username> chatinfo`. -/
def isChatInfoRequest (me : Option BotInfo) (m : TgMessage) : Bool :=
  match m.text, me with
  | some t, some bot =>
      t.toLower == ("@" ++ bot.username ++ " chatinfo").toLower
  | _, _ => false

/-- The else-branch of `createMessageHandler`: reply that this is a private
bot when the chat has no bridge, otherwise hand (message, bridge) to the
wrapped per-kind handler. -/
def ordinaryHandle (bridgeMap : BridgeMap) (m : TgMessage) :
    List WrapAction :=
  match bridgeMap.getBridge m.chat.id with
  | none => [WrapAction.privateBotReply m.chat.id]
  | some bridge => [WrapAction.invokeHandler bridge]

/-- `createMessageHandler`: answer a chat-info request in place, no matter
which chat it came from; pass everything else through the authorization
gate. -/
def createMessageHandler (me : Option BotInfo) (bridgeMap : BridgeMap)
    (m : TgMessage) : List WrapAction :=
  if isChatInfoRequest me m then [WrapAction.chatInfoReply m.chat.id]
  else ordinaryHandle bridgeMap m

/-- C5: an inbound message from a chat with no configured bridge, other
than a chat-info request, produces exactly one informational reply to that
source chat and never reaches the per-kind relay handler (hence zero
destination-platform calls). -/
theorem unbridged_single_reply (me : Option BotInfo) (bridgeMap : BridgeMap)
    (m : TgMessage) (hinfo : isChatInfoRequest me m = false)
    (hnb : bridgeMap.getBridge m.chat.id = none) :
    createMessageHandler me bridgeMap m =
      [WrapAction.privateBotReply m.chat.id] := by
  simp [createMessageHandler, hinfo, ordinaryHandle, hnb]

/-- C5 witness: a concrete photo message (no text, so certainly not a
chat-info request) from unbridged chat 5 yields exactly the one
informational reply. -/
theorem unbridged_single_reply_witness :
    createMessageHandler (some { username := "bot" }) []
        { message_id := 1, chat := { id := 5 }, photo := some ["p1"] } =
      [WrapAction.privateBotReply 5] :=
  unbridged_single_reply (some { username := "bot" }) []
    { message_id := 1, chat := { id := 5 }, photo := some ["p1"] }
    rfl rfl

/-- C10: while the bot's identity is unresolved (`me` undefined), every
message — even one spelling the chat-info command — goes through the
ordinary authorization gate, and the in-place chat-id reply is never
produced. -/
theorem chatinfo_requires_me (bridgeMap : BridgeMap) (m : TgMessage) :
    createMessageHandler none bridgeMap m = ordinaryHandle bridgeMap m ∧
    (createMessageHandler none bridgeMap m).all
      (fun a => !a.isChatInfo) = true := by
  have hfalse : isChatInfoRequest none m = false := by
    cases htext : m.text <;> simp [isChatInfoRequest, htext]
  constructor
  · simp [createMessageHandler, hfalse]
  · cases hb : bridgeMap.getBridge m.chat.id <;>
      simp [createMessageHandler, hfalse, ordinaryHandle, hb,
        WrapAction.isChatInfo]

/-- C10 witness: before identity resolution, a literal chat-info command
from an unbridged chat gets the ordinary unauthorized-chat treatment. -/
theorem chatinfo_requires_me_witness :
    createMessageHandler none []
        { message_id := 1, chat := { id := 5 },
          text := some "@bot chatinfo" } =
      ordinaryHandle []
        { message_id := 1, chat := { id := 5 },
          text := some "@bot chatinfo" } ∧
    (createMessageHandler none []
        { message_id := 1, chat := { id := 5 },
          text := some "@bot chatinfo" }).all
      (fun a => !a.isChatInfo) = true :=
  chatinfo_requires_me []
    { message_id := 1, chat := { id := 5 }, text := some "@bot chatinfo" }

/-! ## IdentityMap and the text handler -/

/-- The direction enum of the identity store (`MessageMap`); the bundle
uses only the Telegram-to-Discord direction. -/
inductive Direction where
  | TELEGRAM_TO_DISCORD
deriving DecidableEq, Repr

/-- Modelled from the spec: the IdentityMap (the `MessageMap` module is not
in the bundle; only its callers are): a store of (direction, source id,
destination id) triples, with insert and a pure lookup returning the
destination id or nothing. -/
abbrev IdentityMap := List (Direction × Nat × Nat)

/-- `messageMap.insert(direction, sourceId, destId)`. -/
def IdentityMap.insert (map : IdentityMap) (d : Direction)
    (sourceId destId : Nat) : IdentityMap :=
  (d, sourceId, destId) :: map

/-- `messageMap.getCorresponding(direction, sourceId)`: the destination id
recorded for the source id, if any. -/
def IdentityMap.getCorresponding (map : IdentityMap) (d : Direction)
    (sourceId : Nat) : Option Nat :=
  (map.find? fun e => e.1 == d && e.2.1 == sourceId).map fun e => e.2.2

/-- The observable outcome of the text handler: the send attempts it makes
(channel, composed text), the identity map afterwards, and the number of
error log lines. -/
structure TextRelayTrace where
  sends : List (String × String)
  map : IdentityMap
  errorLogs : Nat
deriving DecidableEq, Repr

/-- The `text` handler of setup.js: convert the message
(`messageConverter`'s composed text is the explicit `convert` argument),
send it to the bridge's Discord channel, and insert the id mapping on
success; on failure log twice (message and text) and leave the map
alone. `send` is the Discord client's response. -/
def textHandler (map : IdentityMap) (convert : TgMessage → String)
    (send : String → String → Except Unit Nat) (bridge : Bridge)
    (m : TgMessage) : TextRelayTrace :=
  let composed := convert m
  match send bridge.discordChannel composed with
  | .error _ =>
      { sends := [(bridge.discordChannel, composed)]
        map := map
        errorLogs := 2 }
  | .ok dcId =>
      { sends := [(bridge.discordChannel, composed)]
        map := map.insert Direction.TELEGRAM_TO_DISCORD m.message_id dcId
        errorLogs := 0 }

/-- C6: if the destination send fails, the text handler writes no
IdentityMap entry (the map is exactly unchanged) and logs the failure;
the mapping is inserted only after a successful send. -/
theorem textHandler_map_discipline (map : IdentityMap)
    (convert : TgMessage → String)
    (send : String → String → Except Unit Nat) (bridge : Bridge)
    (m : TgMessage) :
    (send bridge.discordChannel (convert m) = .error () →
      (textHandler map convert send bridge m).map = map ∧
      0 < (textHandler map convert send bridge m).errorLogs) ∧
    ∀ dcId, send bridge.discordChannel (convert m) = .ok dcId →
      (textHandler map convert send bridge m).map =
        map.insert Direction.TELEGRAM_TO_DISCORD m.message_id dcId := by
  constructor
  · intro hfail
    constructor <;> simp [textHandler, hfail]
  · intro dcId hok
    simp [textHandler, hok]

/-- C6 witness: with a rejecting destination, the map stays empty and the
failure is logged; with an accepting one, the mapping appears. -/
theorem textHandler_map_discipline_witness :
    ((textHandler [] (fun _ => "t") (fun _ _ => .error ())
        { name := "b", discordChannel := "c", forwardStickerEmoji := false }
        { message_id := 10, chat := { id := 5 } }).map = [] ∧
      0 < (textHandler [] (fun _ => "t") (fun _ _ => .error ())
        { name := "b", discordChannel := "c", forwardStickerEmoji := false }
        { message_id := 10, chat := { id := 5 } }).errorLogs) ∧
    (textHandler [] (fun _ => "t") (fun _ _ => .ok 555)
        { name := "b", discordChannel := "c", forwardStickerEmoji := false }
        { message_id := 10, chat := { id := 5 } }).map =
      IdentityMap.insert [] Direction.TELEGRAM_TO_DISCORD 10 555 :=
  ⟨(textHandler_map_discipline [] (fun _ => "t") (fun _ _ => .error ())
      { name := "b", discordChannel := "c", forwardStickerEmoji := false }
      { message_id := 10, chat := { id := 5 } }).1 rfl,
    (textHandler_map_discipline [] (fun _ => "t") (fun _ _ => .ok 555)
      { name := "b", discordChannel := "c", forwardStickerEmoji := false }
      { message_id := 10, chat := { id := 5 } }).2 555 rfl⟩

/-! ## The messageEdit handler -/

/-- The observable outcome of the messageEdit handler: the fetch calls it
issues to the destination (channel, possibly-absent message id), the edit
calls (message, new text), and the number of error log lines. -/
structure EditTrace where
  fetchCalls : List (String × Option Nat)
  editCalls : List (Nat × String)
  errorLogs : Nat
deriving DecidableEq, Repr

/-- The `messageEdit` handler of setup.js: look the source id up in the
map, call `fetchMessage` on the bridge's channel with whatever the lookup
returned (the source has no miss branch), and edit the fetched message with
the freshly converted text; any rejection lands in the catch, which logs
once.  `fetchMessage` and `editMessage` are the Discord client's
responses, passed in explicitly. -/
def messageEditHandler (map : IdentityMap) (convert : TgMessage → String)
    (fetchMessage : Option Nat → Except Unit Nat)
    (editMessage : Nat → String → Except Unit Unit) (bridge : Bridge)
    (m : TgMessage) : EditTrace :=
  let dcMessageId :=
    map.getCorresponding Direction.TELEGRAM_TO_DISCORD m.message_id
  match fetchMessage dcMessageId with
  | .error _ =>
      { fetchCalls := [(bridge.discordChannel, dcMessageId)]
        editCalls := []
        errorLogs := 1 }
  | .ok dcMsg =>
      let composed := convert m
      match editMessage dcMsg composed with
      | .error _ =>
          { fetchCalls := [(bridge.discordChannel, dcMessageId)]
            editCalls := [(dcMsg, composed)]
            errorLogs := 1 }
      | .ok _ =>
          { fetchCalls := [(bridge.discordChannel, dcMessageId)]
            editCalls := [(dcMsg, composed)]
            errorLogs := 0 }

/-- C1 counterexample: for an unmapped source id (999 against an empty
map), the edit handler still issues a destination fetch call — carrying the
absent id — contradicting "makes no call to the destination platform (no
fetch, no edit)". -/
theorem messageEditHandler_miss_fetches :
    (messageEditHandler [] (fun _ => "t")
        (fun o => match o with | none => .error () | some i => .ok i)
        (fun _ _ => .ok ())
        { name := "b", discordChannel := "c", forwardStickerEmoji := false }
        { message_id := 999, chat := { id := 1 } }).fetchCalls ≠ [] := by
  decide

/-- C1 (amended): assuming the destination rejects a fetch for an absent
id, an edit whose source id is unmapped produces exactly one (failing)
fetch carrying the absent id, no edit call, and one logged miss; for a
mapped id whose destination fetch and edit succeed, the handler edits the
fetched message with the freshly converted text. -/
theorem messageEditHandler_correlation (map : IdentityMap)
    (convert : TgMessage → String)
    (fetchMessage : Option Nat → Except Unit Nat)
    (editMessage : Nat → String → Except Unit Unit) (bridge : Bridge)
    (m : TgMessage) (hnone : fetchMessage none = .error ()) :
    (map.getCorresponding Direction.TELEGRAM_TO_DISCORD m.message_id =
        none →
      messageEditHandler map convert fetchMessage editMessage bridge m =
        { fetchCalls := [(bridge.discordChannel, none)]
          editCalls := []
          errorLogs := 1 }) ∧
    ∀ dcId dcMsg,
      map.getCorresponding Direction.TELEGRAM_TO_DISCORD m.message_id =
        some dcId →
      fetchMessage (some dcId) = .ok dcMsg →
      editMessage dcMsg (convert m) = .ok () →
      messageEditHandler map convert fetchMessage editMessage bridge m =
        { fetchCalls := [(bridge.discordChannel, some dcId)]
          editCalls := [(dcMsg, convert m)]
          errorLogs := 0 } := by
  constructor
  · intro hmiss
    simp [messageEditHandler, hmiss, hnone]
  · intro dcId dcMsg hhit hfetch hedit
    simp [messageEditHandler, hhit, hfetch, hedit]

/-- C1 witness: with source id 10 mapped to 555, the edit lands on message
555 with the converted text; unmapped id 999 yields one failing fetch, no
edit, one log line. -/
theorem messageEditHandler_correlation_witness :
    messageEditHandler [(Direction.TELEGRAM_TO_DISCORD, 10, 555)]
        (fun _ => "converted")
        (fun o => match o with | none => .error () | some i => .ok i)
        (fun _ _ => .ok ())
        { name := "b", discordChannel := "c", forwardStickerEmoji := false }
        { message_id := 10, chat := { id := 1 } } =
      { fetchCalls := [("c", some 555)]
        editCalls := [(555, "converted")]
        errorLogs := 0 } ∧
    messageEditHandler [(Direction.TELEGRAM_TO_DISCORD, 10, 555)]
        (fun _ => "converted")
        (fun o => match o with | none => .error () | some i => .ok i)
        (fun _ _ => .ok ())
        { name := "b", discordChannel := "c", forwardStickerEmoji := false }
        { message_id := 999, chat := { id := 1 } } =
      { fetchCalls := [("c", none)]
        editCalls := []
        errorLogs := 1 } :=
  ⟨(messageEditHandler_correlation
      [(Direction.TELEGRAM_TO_DISCORD, 10, 555)] (fun _ => "converted")
      (fun o => match o with | none => .error () | some i => .ok i)
      (fun _ _ => .ok ())
      { name := "b", discordChannel := "c", forwardStickerEmoji := false }
      { message_id := 10, chat := { id := 1 } } rfl).2 555 555 rfl rfl rfl,
    (messageEditHandler_correlation
      [(Direction.TELEGRAM_TO_DISCORD, 10, 555)] (fun _ => "converted")
      (fun o => match o with | none => .error () | some i => .ok i)
      (fun _ _ => .ok ())
      { name := "b", discordChannel := "c", forwardStickerEmoji := false }
      { message_id := 999, chat := { id := 1 } } rfl).1 rfl⟩

/-! ## The sticker handler's relay job -/

/-- The application settings field the sticker handler reads
(`Application.settings.telegram.sendEmojiWithStickers`, a process-global
setting). -/
structure TediSettings where
  sendEmojiWithStickers : Bool
deriving DecidableEq, Repr

/-- The argument record a media handler passes to the file sender (the
spec's RelayJob). -/
structure RelayJob where
  discordChannel : String
  fileId : String
  fileName : String
  caption : Option String
  resolveExtension : Bool
deriving DecidableEq, Repr

/-- The `sticker` handler's call to `sendFile`: the sticker's thumb file
id, fixed name `sticker.webp`, and a caption that is the sticker's emoji
when the global `sendEmojiWithStickers` setting is on and absent otherwise.
`none` overall models the thrown TypeError (caught and logged) when the
message has no sticker. -/
def stickerRelayJob (settings : TediSettings) (bridge : Bridge)
    (m : TgMessage) : Option RelayJob :=
  m.sticker.map fun s =>
    { discordChannel := bridge.discordChannel
      fileId := s.thumb_file_id
      fileName := "sticker.webp"
      caption := if settings.sendEmojiWithStickers then s.emoji else none
      resolveExtension := false }

/-- C4 counterexample: the caption follows the global setting, not the
bridge: with the setting on but the bridge's "forward sticker emoji" flag
off, the relay job still carries the emoji caption. -/
theorem stickerRelayJob_global_not_per_bridge :
    ((stickerRelayJob { sendEmojiWithStickers := true }
        { name := "b", discordChannel := "c", forwardStickerEmoji := false }
        { message_id := 1, chat := { id := 1 }
          sticker := some { thumb_file_id := "f", emoji := some "😀" } }).bind
      RelayJob.caption) = some "😀" ∧
    ({ name := "b", discordChannel := "c", forwardStickerEmoji := false
        : Bridge }).forwardStickerEmoji = false :=
  ⟨rfl, rfl⟩

/-- C4 (amended): for a sticker message carrying an emoji, the relay job's
caption is the emoji exactly when the global `sendEmojiWithStickers`
setting is on; when it is off the caption is omitted; and the caption is
independent of the bridge. -/
theorem stickerRelayJob_caption (settings : TediSettings) (bridge : Bridge)
    (m : TgMessage) (s : TgSticker) (e : String) (hs : m.sticker = some s)
    (he : s.emoji = some e) :
    (((stickerRelayJob settings bridge m).bind RelayJob.caption) = some e ↔
      settings.sendEmojiWithStickers = true) ∧
    (settings.sendEmojiWithStickers = false →
      ((stickerRelayJob settings bridge m).bind RelayJob.caption) = none) ∧
    ∀ bridge' : Bridge,
      (stickerRelayJob settings bridge' m).bind RelayJob.caption =
        (stickerRelayJob settings bridge m).bind RelayJob.caption := by
  refine ⟨?_, ?_, ?_⟩
  · cases hflag : settings.sendEmojiWithStickers <;>
      simp [stickerRelayJob, hs, he, hflag]
  · intro hflag
    simp [stickerRelayJob, hs, hflag]
  · intro bridge'
    cases hflag : settings.sendEmojiWithStickers <;>
      simp [stickerRelayJob, hs, hflag]

/-- C4 witness: with the global setting on, the 😀 sticker's job carries
caption 😀, whichever bridge is used. -/
theorem stickerRelayJob_caption_witness :
    (((stickerRelayJob { sendEmojiWithStickers := true }
        { name := "b", discordChannel := "c", forwardStickerEmoji := true }
        { message_id := 1, chat := { id := 1 }
          sticker := some { thumb_file_id := "f", emoji := some "😀" } }).bind
      RelayJob.caption) = some "😀" ↔
      ({ sendEmojiWithStickers := true
          : TediSettings }).sendEmojiWithStickers = true) ∧
    (({ sendEmojiWithStickers := true
          : TediSettings }).sendEmojiWithStickers = false →
      ((stickerRelayJob { sendEmojiWithStickers := true }
        { name := "b", discordChannel := "c", forwardStickerEmoji := true }
        { message_id := 1, chat := { id := 1 }
          sticker := some { thumb_file_id := "f", emoji := some "😀" } }).bind
      RelayJob.caption) = none) ∧
    ∀ bridge' : Bridge,
      (stickerRelayJob { sendEmojiWithStickers := true } bridge'
          { message_id := 1, chat := { id := 1 }
            sticker := some { thumb_file_id := "f", emoji := some "😀" } }).bind
        RelayJob.caption =
      (stickerRelayJob { sendEmojiWithStickers := true }
          { name := "b", discordChannel := "c", forwardStickerEmoji := true }
          { message_id := 1, chat := { id := 1 }
            sticker := some { thumb_file_id := "f", emoji := some "😀" } }).bind
        RelayJob.caption :=
  stickerRelayJob_caption { sendEmojiWithStickers := true }
    { name := "b", discordChannel := "c", forwardStickerEmoji := true }
    { message_id := 1, chat := { id := 1 }
      sticker := some { thumb_file_id := "f", emoji := some "😀" } }
    { thumb_file_id := "f", emoji := some "😀" } "😀" rfl rfl

/-! ## The file sender (`makeFileSender`) -/

/-- The Telegram file object returned by `getFile`; the source reads
`file_path`. -/
structure TgFile where
  file_path : String
deriving DecidableEq, Repr

/-- The single upload call the file sender issues on the destination at
stream end. -/
structure DiscordUpload where
  channel : String
  text : String
  attachment : List Nat
  name : String
deriving DecidableEq, Repr

/-- Splitting a character list at a separator, accumulating the current
segment in reverse. -/
def splitOnCharAux (sep : Char) : List Char → List Char → List (List Char)
  | [], acc => [acc.reverse]
  | c :: cs, acc =>
      if c = sep then acc.reverse :: splitOnCharAux sep cs []
      else splitOnCharAux sep cs (c :: acc)

/-- JavaScript's `String.prototype.split` with a one-character separator,
as used by `file.file_path.split(".")`. -/
def splitOnChar (sep : Char) (s : String) : List String :=
  (splitOnCharAux sep s.data []).map String.mk

/-- The function `makeFileSender` returns, for one job: compose
`**<sender>**:` newline caption (caption defaults to empty when omitted),
resolve the extension as a dot plus the final dot-separated segment of the
source file path when `resolveExtension` is set, push each delivered chunk
onto the buffer list in order, and at stream end issue one upload whose
attachment is the concatenation of the buffers and whose name is the file
name plus the extension.  `senderName` stands in for the converted sender
display name (`messageConverter` is outside the bundle); `chunks` is the
ordered data the download stream delivers, with bytes as naturals. -/
def sendFileUpload (senderName discordChannel : String) (file : TgFile)
    (chunks : List (List Nat)) (fileName : String) (caption : Option String)
    (resolveExtension : Bool) : DiscordUpload :=
  let textToSend := "**" ++ senderName ++ "**:\n" ++ caption.getD ""
  let extension :=
    if resolveExtension then
      "." ++ (splitOnChar '.' file.file_path).getLastD ""
    else ""
  let buffers := chunks.foldl (fun bs c => bs ++ [c]) []
  { channel := discordChannel
    text := textToSend
    attachment := buffers.flatten
    name := fileName ++ extension }

/-- Pushing elements one by one onto a buffer list reproduces the list. -/
theorem foldl_push_eq_append {α : Type} (l : List α) (acc : List α) :
    l.foldl (fun bs c => bs ++ [c]) acc = acc ++ l := by
  induction l generalizing acc with
  | nil => simp
  | cons c t ih => simp [ih]

/-- C8: the uploaded attachment is the in-order concatenation of every
chunk the download stream delivered. -/
theorem sendFileUpload_attachment (senderName discordChannel : String)
    (file : TgFile) (chunks : List (List Nat)) (fileName : String)
    (caption : Option String) (resolveExtension : Bool) :
    (sendFileUpload senderName discordChannel file chunks fileName caption
        resolveExtension).attachment = chunks.flatten := by
  simp [sendFileUpload, foldl_push_eq_append]

/-- C8 witness: chunks `[AB, CD]` (bytes 65 66 and 67 68) upload as the
single blob `ABCD`. -/
theorem sendFileUpload_attachment_witness :
    (sendFileUpload "s" "c" { file_path := "f" } [[65, 66], [67, 68]] "n"
        none false).attachment = [65, 66, 67, 68] :=
  (sendFileUpload_attachment "s" "c" { file_path := "f" }
    [[65, 66], [67, 68]] "n" none false).trans rfl

/-- C9: with `resolveExtension` set, source path `foo/bar.ogg` and file
name `voice`, the uploaded name is `voice.ogg`; with it unset the name
stays `voice`. -/
theorem sendFileUpload_extension :
    (sendFileUpload "s" "c" { file_path := "foo/bar.ogg" } [] "voice" none
        true).name = "voice.ogg" ∧
    (sendFileUpload "s" "c" { file_path := "foo/bar.ogg" } [] "voice" none
        false).name = "voice" := by
  constructor
  · rfl
  · rfl

end TediCross
